import Mathlib

/-!
Verification development for bmypy (`src/bmypy.py`): a launcher that races a
one-shot `mypy` run against the `dmypy` daemon over the same arguments,
reports whichever trustworthy result arrives first, and resets the daemon
when its result looks corrupted.

Modelling choices: text (stdout, stderr, argv entries) is `List Char`; exit
codes are `Int`; the two regular expressions `NO_ERRORS_RE` and
`WITH_ERRORS_RE` are translated into executable matchers over `List Char`
with Python `re` semantics spelled out (`^` anchors at position 0 since
MULTILINE is off; `$` matches at the end of the string or just before one
trailing newline; `search` tries every start position); the asyncio race in
`inner_main` is modelled as a function of an explicit environment recording
how each task would complete, returning the final observable action plus a
trace of scheduling events.
-/

namespace Bmypy

/-- Which command produced a result (`ProcType = Literal["mypy", "dmypy", "kill"]`). -/
inductive ProcType
  | mypy
  | dmypy
  | kill
deriving DecidableEq

/-- Captured observable behaviour of one finished subprocess (dataclass `ProcResult`). -/
structure ProcResult where
  type : ProcType
  stdout : List Char
  stderr : List Char
  exit_code : Int
deriving DecidableEq

/-- Strip an expected literal from the front of the input, returning the remainder. -/
def stripLit : List Char → List Char → Option (List Char)
  | [], s => some s
  | _ :: _, [] => none
  | l :: ls, c :: cs => if c = l then stripLit ls cs else none

/-- Strip one or more decimal digits (regex `[0-9]+`), greedily, returning the
remainder. Greedy matching is faithful to the backtracking regex: in both
regexes the character after a digit run is a space, never a digit. -/
def stripDigits1 : List Char → Option (List Char)
  | [] => none
  | c :: cs => if c.isDigit then some (cs.dropWhile Char.isDigit) else none

/-- Strip the optional literal `s` (regex group `(s)?`), greedily; faithful to
the backtracking regex because in both regexes the character following the
group is a space or a newline, never `s`. -/
def stripOptS : List Char → List Char
  | [] => []
  | c :: cs => if c = 's' then cs else c :: cs

/-- Python `$` with MULTILINE off: the position is at the end of the string or
just before a single trailing newline. -/
def endAnchor (s : List Char) : Bool :=
  s == [] || s == ['\n']

/-- Literal `Success: no issues found in ` opening `NO_ERRORS_RE`. -/
def noIssuesLit : List Char := "Success: no issues found in ".data

/-- Literal ` source file` of `NO_ERRORS_RE`, written head-exposed. -/
def sourceFileLit : List Char := ' ' :: "source file".data

/-- Literal `\n` closing both regexes right before `$`. -/
def nlLit : List Char := ['\n']

/-- Literal `\nFound ` opening `WITH_ERRORS_RE`, written head-exposed. -/
def nlFoundLit : List Char := '\n' :: "Found ".data

/-- Literal ` error` of `WITH_ERRORS_RE`, written head-exposed. -/
def errorLit : List Char := ' ' :: "error".data

/-- Literal ` in ` of `WITH_ERRORS_RE`, written head-exposed. -/
def inLit : List Char := ' ' :: "in ".data

/-- Literal ` file` of `WITH_ERRORS_RE`, written head-exposed. -/
def fileLit : List Char := ' ' :: "file".data

/-- Literal ` (checked ` of `WITH_ERRORS_RE`, written head-exposed. -/
def checkedLit : List Char := ' ' :: "(checked ".data

/-- Literal ` source files)\n` closing `WITH_ERRORS_RE` before `$`, head-exposed. -/
def sourceFilesLit : List Char := ' ' :: "source files)\n".data

/-- Remainder of the input after matching the body of
`NO_ERRORS_RE = ^Success: no issues found in [0-9]+ source file(s)?\n$`
at position 0 (everything but the final `$` assertion). -/
def noErrorsTail (s : List Char) : Option (List Char) :=
  (stripLit noIssuesLit s).bind fun s1 =>
  (stripDigits1 s1).bind fun s2 =>
  (stripLit sourceFileLit s2).bind fun s3 =>
  stripLit nlLit (stripOptS s3)

/-- Truth value of `NO_ERRORS_RE.search(s)`: since the pattern starts with `^`
and MULTILINE is off, the search can only succeed at position 0. -/
def noErrorsSearch (s : List Char) : Bool :=
  match noErrorsTail s with
  | some rest => endAnchor rest
  | none => false

/-- Remainder of the input after matching the body of `WITH_ERRORS_RE`
starting at the current position (everything but the final `$` assertion). -/
def withErrorsTail (s : List Char) : Option (List Char) :=
  (stripLit nlFoundLit s).bind fun s1 =>
  (stripDigits1 s1).bind fun s2 =>
  (stripLit errorLit s2).bind fun s3 =>
  (stripLit inLit (stripOptS s3)).bind fun s4 =>
  (stripDigits1 s4).bind fun s5 =>
  (stripLit fileLit s5).bind fun s6 =>
  (stripLit checkedLit (stripOptS s6)).bind fun s7 =>
  (stripDigits1 s7).bind fun s8 =>
  stripLit sourceFilesLit s8

/-- The body of `WITH_ERRORS_RE` matches at the current position and the `$`
assertion holds after it. -/
def withErrorsAt (s : List Char) : Bool :=
  match withErrorsTail s with
  | some rest => endAnchor rest
  | none => false

/-- Truth value of `WITH_ERRORS_RE.search(s)`: the pattern is tried at every
start position of the input. -/
def withErrorsSearch : List Char → Bool
  | [] => false
  | c :: cs => withErrorsAt (c :: cs) || withErrorsSearch cs

/-- Translation of `is_successful_result`: the exit code must be 0 or 1, the
captured stderr must be empty, and stdout must match one of the two regexes. -/
def is_successful_result (r : ProcResult) : Bool :=
  if ¬(r.exit_code = 0 ∨ r.exit_code = 1) then false
  else if r.stderr ≠ [] then false
  else if noErrorsSearch r.stdout || withErrorsSearch r.stdout then true
  else false

/-- A nonempty run of decimal digits (what regex `[0-9]+` consumes). -/
def DigitRun (d : List Char) : Prop := d ≠ [] ∧ ∀ c ∈ d, c.isDigit = true

/-- The optional plural `s` (what regex group `(s)?` consumes). -/
def OptS (p : List Char) : Prop := p = [] ∨ p = ['s']

/-- What may follow the final matched `\n` under the Python `$` assertion:
nothing, or one more trailing newline. -/
def EndTail (t : List Char) : Prop := t = [] ∨ t = ['\n']

/-- The success line pattern, spelled out: the whole output is
`Success: no issues found in N source file(s)` followed by a newline and at
most one extra trailing newline. Anchored at the start by `^` and at the end
by `\n$`. -/
def SuccessPattern (s : List Char) : Prop :=
  ∃ d p t, DigitRun d ∧ OptS p ∧ EndTail t ∧
    s = noIssuesLit ++ (d ++ (sourceFileLit ++ (p ++ ('\n' :: t))))

/-- Body of the summary footer starting at the current position: a line break
followed by `Found N error(s) in N file(s) (checked N source files)`, a
newline, and at most one extra trailing newline (the `$` assertion). -/
def FooterBody (s : List Char) : Prop :=
  ∃ d1 p1 d2 p2 d3 t,
    DigitRun d1 ∧ OptS p1 ∧ DigitRun d2 ∧ OptS p2 ∧ DigitRun d3 ∧ EndTail t ∧
      s = nlFoundLit ++ (d1 ++ (errorLit ++ (p1 ++ (inLit ++ (d2 ++
            (fileLit ++ (p2 ++ (checkedLit ++ (d3 ++ (sourceFilesLit ++ t))))))))))

/-- The summary footer pattern, spelled out: some suffix of the output is the
footer body, i.e. the footer line is anchored at the end of the output (up to
the `$` trailing-newline allowance) and preceded by a line break. -/
def FooterPattern (s : List Char) : Prop :=
  ∃ pre suf, s = pre ++ suf ∧ FooterBody suf

/-- Exceptions that can end a task or escape `inner_main`. `timeoutError` is
the built-in `TimeoutError` (which `asyncio.wait_for` raises on timeout and
the code catches); `assertionError` is the defensive `AssertionError` of the
unreachable race branch; `other n` stands for any further exception, such as
a launch failure (`FileNotFoundError`), which nothing in the code catches. -/
inductive Exn
  | timeoutError
  | assertionError
  | other (n : Nat)
deriving DecidableEq

/-- The two racing asyncio tasks created by `inner_main`. -/
inductive TaskKind
  | daemonTask
  | syncTask
deriving DecidableEq

/-- Observable scheduling actions of `inner_main`, in program order. -/
inductive Event
  | launch (p : ProcType)
  | cancel (t : TaskKind)
  | graceAwait
  | killRunCompleted
  | logKillFailure
  | unboundedAwait (t : TaskKind)
deriving DecidableEq

/-- Environment of one invocation: how each task would complete if awaited
(`Except.ok` is a normal `ProcResult`, `Except.error` a raised exception),
which of the two tasks are in the `done` set of the first
`wait(..., FIRST_COMPLETED)`, and whether the daemon task finishes within the
1-time-unit grace period when the one-shot task won. -/
structure RaceEnv where
  daemonOutcome : Except Exn ProcResult
  syncOutcome : Except Exn ProcResult
  killOutcome : Except Exn ProcResult
  daemonDoneFirst : Bool
  syncDoneFirst : Bool
  daemonWithinGrace : Bool

/-- Translation of `kill_mypy`: run `dmypy kill` and await it; a nonzero exit
code or nonempty stderr is only logged as a warning; an exception from the
run itself propagates. Returns the escaping exception (if any) and the trace. -/
def kill_mypy (res : Except Exn ProcResult) : Option Exn × List Event :=
  match res with
  | .error e => (some e, [Event.launch .kill])
  | .ok r =>
    if r.exit_code ≠ 0 ∨ r.stderr ≠ [] then
      (none, [Event.launch .kill, Event.killRunCompleted, Event.logKillFailure])
    else
      (none, [Event.launch .kill, Event.killRunCompleted])

/-- What the final lines of `inner_main` write and the process exit code:
`out` is written to stdout, `err` to stderr, `code` passed to `sys.exit`. -/
structure Emitted where
  out : List Char
  err : List Char
  code : Int
deriving DecidableEq

/-- Marker line prepended to a reported nonempty stderr. -/
def stderrMarker : List Char := "STDERR:\n".data

/-- Translation of the reporting tail of `inner_main`:
`sys.stdout.write(result.stdout)`, then `STDERR:` marker plus
`result.stderr` on stderr only when stderr is nonempty, then
`sys.exit(result.exit_code)`. -/
def report (r : ProcResult) : Emitted :=
  { out := r.stdout
  , err := if r.stderr = [] then [] else stderrMarker ++ r.stderr
  , code := r.exit_code }

/-- How one invocation of `inner_main` ends: a normal `sys.exit` with the
written streams, or an uncaught exception escaping the coroutine. -/
inductive InnerResult
  | exited (e : Emitted)
  | raised (e : Exn)
deriving DecidableEq

/-- What the no-argument path emits: `print("No args!")` and `sys.exit(1)`. -/
def usageEmitted : Emitted := { out := "No args!\n".data, err := [], code := 1 }

/-- Translation of `inner_main`, branch for branch. With arguments, both
tasks are launched; if the daemon task is in the first `done` set its result
is taken (re-raising its exception if it failed): a trustworthy result is
reported after cancelling the one-shot task, an untrustworthy one triggers
`kill_mypy` (awaited) and then an unbounded await of the one-shot task, whose
result is reported. Otherwise, if the one-shot task is in `done`, its result
is reported after `wait_for(daemon_task, timeout=1)`: a daemon result inside
the grace window is discarded, a `TimeoutError` (the daemon's own, or the one
raised by `wait_for` on timeout) is caught and the daemon task cancelled, and
any other daemon exception propagates. If neither task is in `done`, the
defensive `AssertionError` is raised. -/
def inner_main (args : List (List Char)) (env : RaceEnv) : InnerResult × List Event :=
  if args = [] then
    (.exited usageEmitted, [])
  else
    let ev0 : List Event := [Event.launch .dmypy, Event.launch .mypy]
    if env.daemonDoneFirst then
      match env.daemonOutcome with
      | .error e => (.raised e, ev0)
      | .ok result =>
        if is_successful_result result then
          (.exited (report result), ev0 ++ [Event.cancel .syncTask])
        else
          match kill_mypy env.killOutcome with
          | (some e, kev) => (.raised e, ev0 ++ kev)
          | (none, kev) =>
            match env.syncOutcome with
            | .error e => (.raised e, ev0 ++ kev ++ [Event.unboundedAwait .syncTask])
            | .ok sres => (.exited (report sres), ev0 ++ kev ++ [Event.unboundedAwait .syncTask])
    else if env.syncDoneFirst then
      match env.syncOutcome with
      | .error e => (.raised e, ev0)
      | .ok result =>
        if env.daemonWithinGrace then
          match env.daemonOutcome with
          | .ok _ => (.exited (report result), ev0 ++ [Event.graceAwait])
          | .error .timeoutError =>
            (.exited (report result), ev0 ++ [Event.graceAwait, Event.cancel .daemonTask])
          | .error e => (.raised e, ev0 ++ [Event.graceAwait])
        else
          (.exited (report result), ev0 ++ [Event.graceAwait, Event.cancel .daemonTask])
    else
      (.raised .assertionError, ev0)

/-! Lemmas relating the executable matchers to the spelled-out patterns. -/

theorem stripLit_eq_some (l : List Char) :
    ∀ s r : List Char, stripLit l s = some r ↔ s = l ++ r := by
  induction l with
  | nil =>
    intro s r
    simp [stripLit]
  | cons x ls ih =>
    intro s r
    cases s with
    | nil => simp [stripLit]
    | cons c cs =>
      by_cases hc : c = x
      · subst hc
        simp [stripLit, ih]
      · simp [stripLit, hc]

/-- The input does not start with a decimal digit, so a greedy digit run
cannot extend into it. -/
def headNotDigit : List Char → Prop
  | [] => True
  | c :: _ => c.isDigit = false

/-- The input does not start with the character `s`, so the greedy optional
plural cannot take from it. -/
def headNotS : List Char → Prop
  | [] => True
  | c :: _ => c ≠ 's'

theorem headNotDigit_lit_append (c : Char) (l x : List Char) (h : c.isDigit = false) :
    headNotDigit ((c :: l) ++ x) := h

theorem headNotS_lit_append (c : Char) (l x : List Char) (h : c ≠ 's') :
    headNotS ((c :: l) ++ x) := h

theorem headNotS_cons (c : Char) (l : List Char) (h : c ≠ 's') : headNotS (c :: l) := h

theorem dropWhile_digits_append (d r : List Char) (hall : ∀ c ∈ d, c.isDigit = true)
    (hr : headNotDigit r) : (d ++ r).dropWhile Char.isDigit = r := by
  induction d with
  | nil =>
    cases r with
    | nil => rfl
    | cons c cs =>
      have hc : c.isDigit = false := hr
      simp [List.dropWhile_cons, hc]
  | cons c cs ih =>
    have hc : c.isDigit = true := hall c (by simp)
    simp only [List.cons_append, List.dropWhile_cons, hc, if_true]
    exact ih fun x hx => hall x (by simp [hx])

theorem stripDigits1_of_append (d r : List Char) (hd : DigitRun d) (hr : headNotDigit r) :
    stripDigits1 (d ++ r) = some r := by
  obtain ⟨hne, hall⟩ := hd
  cases d with
  | nil => exact absurd rfl hne
  | cons c cs =>
    have hc : c.isDigit = true := hall c (by simp)
    simp only [List.cons_append, stripDigits1, hc, if_true]
    rw [dropWhile_digits_append cs r (fun x hx => hall x (by simp [hx])) hr]

theorem stripDigits1_eq_some (s r : List Char) (h : stripDigits1 s = some r) :
    ∃ d, DigitRun d ∧ s = d ++ r := by
  cases s with
  | nil => exact absurd h (by simp [stripDigits1])
  | cons c cs =>
    rw [stripDigits1] at h
    by_cases hc : c.isDigit = true
    · rw [if_pos hc, Option.some.injEq] at h
      refine ⟨c :: cs.takeWhile Char.isDigit, ⟨by simp, ?_⟩, ?_⟩
      · intro x hx
        rcases List.mem_cons.mp hx with h1 | h1
        · rw [h1]; exact hc
        · exact List.mem_takeWhile_imp h1
      · rw [List.cons_append, ← h, List.takeWhile_append_dropWhile]
    · rw [if_neg hc] at h
      exact absurd h (by simp)

theorem stripOptS_of_append (p x : List Char) (hp : OptS p) (hx : headNotS x) :
    stripOptS (p ++ x) = x := by
  rcases hp with hp | hp
  · subst hp
    cases x with
    | nil => rfl
    | cons c cs =>
      have hc : c ≠ 's' := hx
      simp [stripOptS, hc]
  · subst hp
    simp [stripOptS]

theorem stripOptS_decomp (s : List Char) : ∃ p, OptS p ∧ s = p ++ stripOptS s := by
  cases s with
  | nil => exact ⟨[], Or.inl rfl, rfl⟩
  | cons c cs =>
    by_cases hc : c = 's'
    · subst hc
      exact ⟨['s'], Or.inr rfl, by simp [stripOptS]⟩
    · exact ⟨[], Or.inl rfl, by simp [stripOptS, hc]⟩

theorem endAnchor_iff (s : List Char) : endAnchor s = true ↔ EndTail s := by
  simp [endAnchor, EndTail]

theorem noErrorsSearch_iff (s : List Char) : noErrorsSearch s = true ↔ SuccessPattern s := by
  constructor
  · intro h
    unfold noErrorsSearch at h
    cases htail : noErrorsTail s with
    | none =>
      rw [htail] at h
      exact Bool.noConfusion (show false = true from h)
    | some rest =>
      rw [htail] at h
      have hend : endAnchor rest = true := h
      unfold noErrorsTail at htail
      rw [Option.bind_eq_some] at htail
      obtain ⟨s1, e1, htail⟩ := htail
      rw [Option.bind_eq_some] at htail
      obtain ⟨s2, e2, htail⟩ := htail
      rw [Option.bind_eq_some] at htail
      obtain ⟨s3, e3, e4⟩ := htail
      obtain ⟨d, hd, hs1⟩ := stripDigits1_eq_some s1 s2 e2
      obtain ⟨p, hp, hs3⟩ := stripOptS_decomp s3
      have hs : s = noIssuesLit ++ s1 := (stripLit_eq_some _ _ _).mp e1
      have hs2 : s2 = sourceFileLit ++ s3 := (stripLit_eq_some _ _ _).mp e3
      have hrest : stripOptS s3 = nlLit ++ rest := (stripLit_eq_some _ _ _).mp e4
      refine ⟨d, p, rest, hd, hp, (endAnchor_iff rest).mp hend, ?_⟩
      rw [hs, hs1, hs2, hs3, hrest]
      rfl
  · rintro ⟨d, p, t, hd, hp, ht, rfl⟩
    have hnd : headNotDigit (sourceFileLit ++ (p ++ ('\n' :: t))) :=
      headNotDigit_lit_append ' ' _ _ (by decide)
    have hns : headNotS ('\n' :: t) := headNotS_cons _ _ (by decide)
    have e1 : stripLit noIssuesLit
        (noIssuesLit ++ (d ++ (sourceFileLit ++ (p ++ ('\n' :: t)))))
          = some (d ++ (sourceFileLit ++ (p ++ ('\n' :: t)))) :=
      (stripLit_eq_some _ _ _).mpr rfl
    have e2 : stripDigits1 (d ++ (sourceFileLit ++ (p ++ ('\n' :: t))))
        = some (sourceFileLit ++ (p ++ ('\n' :: t))) :=
      stripDigits1_of_append _ _ hd hnd
    have e3 : stripLit sourceFileLit (sourceFileLit ++ (p ++ ('\n' :: t)))
        = some (p ++ ('\n' :: t)) := (stripLit_eq_some _ _ _).mpr rfl
    have e4 : stripOptS (p ++ ('\n' :: t)) = '\n' :: t := stripOptS_of_append _ _ hp hns
    have e5 : stripLit nlLit ('\n' :: t) = some t := (stripLit_eq_some _ _ _).mpr rfl
    have htail : noErrorsTail
        (noIssuesLit ++ (d ++ (sourceFileLit ++ (p ++ ('\n' :: t))))) = some t := by
      simp only [noErrorsTail, e1, Option.some_bind, e2, e3, e4, e5]
    unfold noErrorsSearch
    rw [htail]
    exact (endAnchor_iff t).mpr ht

theorem withErrorsAt_iff (s : List Char) : withErrorsAt s = true ↔ FooterBody s := by
  constructor
  · intro h
    unfold withErrorsAt at h
    cases htail : withErrorsTail s with
    | none =>
      rw [htail] at h
      exact Bool.noConfusion (show false = true from h)
    | some rest =>
      rw [htail] at h
      have hend : endAnchor rest = true := h
      unfold withErrorsTail at htail
      simp only [Option.bind_eq_some] at htail
      obtain ⟨s1, e1, s2, e2, s3, e3, s4, e4, s5, e5, s6, e6, s7, e7, s8, e8, e9⟩ := htail
      obtain ⟨d1, hd1, h1⟩ := stripDigits1_eq_some s1 s2 e2
      obtain ⟨p1, hp1, h3⟩ := stripOptS_decomp s3
      obtain ⟨d2, hd2, h5⟩ := stripDigits1_eq_some s4 s5 e5
      obtain ⟨p2, hp2, h7⟩ := stripOptS_decomp s6
      obtain ⟨d3, hd3, h9⟩ := stripDigits1_eq_some s7 s8 e8
      have hsA : s = nlFoundLit ++ s1 := (stripLit_eq_some _ _ _).mp e1
      have h2 : s2 = errorLit ++ s3 := (stripLit_eq_some _ _ _).mp e3
      have h4 : stripOptS s3 = inLit ++ s4 := (stripLit_eq_some _ _ _).mp e4
      have h6 : s5 = fileLit ++ s6 := (stripLit_eq_some _ _ _).mp e6
      have h8 : stripOptS s6 = checkedLit ++ s7 := (stripLit_eq_some _ _ _).mp e7
      have h10 : s8 = sourceFilesLit ++ rest := (stripLit_eq_some _ _ _).mp e9
      refine ⟨d1, p1, d2, p2, d3, rest, hd1, hp1, hd2, hp2, hd3,
        (endAnchor_iff rest).mp hend, ?_⟩
      rw [hsA, h1, h2, h3, h4, h5, h6, h7, h8, h9, h10]
  · rintro ⟨d1, p1, d2, p2, d3, t, hd1, hp1, hd2, hp2, hd3, ht, rfl⟩
    have hnd1 : headNotDigit (errorLit ++ (p1 ++ (inLit ++ (d2 ++ (fileLit ++ (p2 ++
        (checkedLit ++ (d3 ++ (sourceFilesLit ++ t))))))))) :=
      headNotDigit_lit_append ' ' _ _ (by decide)
    have hns1 : headNotS (inLit ++ (d2 ++ (fileLit ++ (p2 ++
        (checkedLit ++ (d3 ++ (sourceFilesLit ++ t))))))) :=
      headNotS_lit_append ' ' _ _ (by decide)
    have hnd2 : headNotDigit (fileLit ++ (p2 ++ (checkedLit ++ (d3 ++ (sourceFilesLit ++ t))))) :=
      headNotDigit_lit_append ' ' _ _ (by decide)
    have hns2 : headNotS (checkedLit ++ (d3 ++ (sourceFilesLit ++ t))) :=
      headNotS_lit_append ' ' _ _ (by decide)
    have hnd3 : headNotDigit (sourceFilesLit ++ t) :=
      headNotDigit_lit_append ' ' _ _ (by decide)
    have e1 : stripLit nlFoundLit (nlFoundLit ++ (d1 ++ (errorLit ++ (p1 ++ (inLit ++ (d2 ++
        (fileLit ++ (p2 ++ (checkedLit ++ (d3 ++ (sourceFilesLit ++ t)))))))))))
          = some (d1 ++ (errorLit ++ (p1 ++ (inLit ++ (d2 ++ (fileLit ++ (p2 ++
            (checkedLit ++ (d3 ++ (sourceFilesLit ++ t)))))))))) :=
      (stripLit_eq_some _ _ _).mpr rfl
    have e2 : stripDigits1 (d1 ++ (errorLit ++ (p1 ++ (inLit ++ (d2 ++ (fileLit ++ (p2 ++
        (checkedLit ++ (d3 ++ (sourceFilesLit ++ t))))))))))
          = some (errorLit ++ (p1 ++ (inLit ++ (d2 ++ (fileLit ++ (p2 ++
            (checkedLit ++ (d3 ++ (sourceFilesLit ++ t))))))))) :=
      stripDigits1_of_append _ _ hd1 hnd1
    have e3 : stripLit errorLit (errorLit ++ (p1 ++ (inLit ++ (d2 ++ (fileLit ++ (p2 ++
        (checkedLit ++ (d3 ++ (sourceFilesLit ++ t)))))))))
          = some (p1 ++ (inLit ++ (d2 ++ (fileLit ++ (p2 ++
            (checkedLit ++ (d3 ++ (sourceFilesLit ++ t)))))))) :=
      (stripLit_eq_some _ _ _).mpr rfl
    have e4 : stripOptS (p1 ++ (inLit ++ (d2 ++ (fileLit ++ (p2 ++
        (checkedLit ++ (d3 ++ (sourceFilesLit ++ t))))))))
          = inLit ++ (d2 ++ (fileLit ++ (p2 ++ (checkedLit ++ (d3 ++ (sourceFilesLit ++ t)))))) :=
      stripOptS_of_append _ _ hp1 hns1
    have e5 : stripLit inLit (inLit ++ (d2 ++ (fileLit ++ (p2 ++
        (checkedLit ++ (d3 ++ (sourceFilesLit ++ t)))))))
          = some (d2 ++ (fileLit ++ (p2 ++ (checkedLit ++ (d3 ++ (sourceFilesLit ++ t)))))) :=
      (stripLit_eq_some _ _ _).mpr rfl
    have e6 : stripDigits1 (d2 ++ (fileLit ++ (p2 ++ (checkedLit ++ (d3 ++
        (sourceFilesLit ++ t))))))
          = some (fileLit ++ (p2 ++ (checkedLit ++ (d3 ++ (sourceFilesLit ++ t))))) :=
      stripDigits1_of_append _ _ hd2 hnd2
    have e7 : stripLit fileLit (fileLit ++ (p2 ++ (checkedLit ++ (d3 ++ (sourceFilesLit ++ t)))))
        = some (p2 ++ (checkedLit ++ (d3 ++ (sourceFilesLit ++ t)))) :=
      (stripLit_eq_some _ _ _).mpr rfl
    have e8 : stripOptS (p2 ++ (checkedLit ++ (d3 ++ (sourceFilesLit ++ t))))
        = checkedLit ++ (d3 ++ (sourceFilesLit ++ t)) :=
      stripOptS_of_append _ _ hp2 hns2
    have e9 : stripLit checkedLit (checkedLit ++ (d3 ++ (sourceFilesLit ++ t)))
        = some (d3 ++ (sourceFilesLit ++ t)) :=
      (stripLit_eq_some _ _ _).mpr rfl
    have e10 : stripDigits1 (d3 ++ (sourceFilesLit ++ t)) = some (sourceFilesLit ++ t) :=
      stripDigits1_of_append _ _ hd3 hnd3
    have e11 : stripLit sourceFilesLit (sourceFilesLit ++ t) = some t :=
      (stripLit_eq_some _ _ _).mpr rfl
    have htail : withErrorsTail (nlFoundLit ++ (d1 ++ (errorLit ++ (p1 ++ (inLit ++ (d2 ++
        (fileLit ++ (p2 ++ (checkedLit ++ (d3 ++ (sourceFilesLit ++ t))))))))))) = some t := by
      simp only [withErrorsTail, e1, Option.some_bind, e2, e3, e4, e5, e6, e7, e8, e9, e10, e11]
    unfold withErrorsAt
    rw [htail]
    exact (endAnchor_iff t).mpr ht

theorem withErrorsSearch_eq_true (s : List Char) :
    withErrorsSearch s = true ↔ ∃ pre suf, s = pre ++ suf ∧ withErrorsAt suf = true := by
  induction s with
  | nil =>
    constructor
    · intro h
      exact absurd h (by decide)
    · rintro ⟨pre, suf, hs, hat⟩
      rcases List.append_eq_nil.mp hs.symm with ⟨rfl, rfl⟩
      exact absurd hat (by decide)
  | cons c cs ih =>
    constructor
    · intro h
      rw [withErrorsSearch, Bool.or_eq_true] at h
      rcases h with h | h
      · exact ⟨[], c :: cs, rfl, h⟩
      · obtain ⟨pre, suf, rfl, hat⟩ := ih.mp h
        exact ⟨c :: pre, suf, rfl, hat⟩
    · rintro ⟨pre, suf, hs, hat⟩
      cases pre with
      | nil =>
        simp only [List.nil_append] at hs
        subst hs
        simp [withErrorsSearch, hat]
      | cons x xs =>
        rw [List.cons_append] at hs
        injection hs with hx hcs
        subst hx
        have hrec : withErrorsSearch cs = true := ih.mpr ⟨xs, suf, hcs, hat⟩
        simp [withErrorsSearch, hrec]

theorem withErrorsSearch_iff (s : List Char) : withErrorsSearch s = true ↔ FooterPattern s := by
  rw [withErrorsSearch_eq_true]
  unfold FooterPattern
  constructor
  · rintro ⟨pre, suf, hs, hat⟩
    exact ⟨pre, suf, hs, (withErrorsAt_iff suf).mp hat⟩
  · rintro ⟨pre, suf, hs, hbody⟩
    exact ⟨pre, suf, hs, (withErrorsAt_iff suf).mpr hbody⟩

/-! Concrete sample data used by the witnesses. -/

/-- Sample trustworthy stdout: mypy's success line for one file. -/
def okStdout : List Char := "Success: no issues found in 1 source file\n".data

/-- Sample trustworthy daemon result. -/
def dGood : ProcResult := ⟨ProcType.dmypy, okStdout, [], 0⟩

/-- Sample untrustworthy daemon result (crash: exit code 2, stderr output). -/
def dBad : ProcResult := ⟨ProcType.dmypy, [], ['b'], 2⟩

/-- Sample one-shot result. -/
def mRes : ProcResult := ⟨ProcType.mypy, okStdout, [], 0⟩

/-- Sample clean kill run. -/
def kOk : ProcResult := ⟨ProcType.kill, [], [], 0⟩

/-- Sample failed kill run (nonzero exit code, stderr output). -/
def kBad : ProcResult := ⟨ProcType.kill, [], ['k'], 2⟩

theorem stderrMarker_ne_nil : stderrMarker ≠ [] := by decide

/-! Claim theorems. -/

/-- Claim C1: `is_successful_result` returns true for exactly those results
whose exit code is 0 or 1, whose stderr is empty, and whose stdout matches
one of the two fixed patterns: the success line (matched by `NO_ERRORS_RE`,
anchored at the start of the output by `^` and at its end by `\n$`) or the
summary footer (matched by `WITH_ERRORS_RE`, preceded by a line break and
anchored at the end of the output by `\n$`, where Python `$` also tolerates
one extra trailing newline). For every other combination it returns false. -/
theorem claim_C1_classifier_characterization (r : ProcResult) :
    is_successful_result r = true ↔
      (r.exit_code = 0 ∨ r.exit_code = 1) ∧ r.stderr = [] ∧
        (SuccessPattern r.stdout ∨ FooterPattern r.stdout) := by
  unfold is_successful_result
  by_cases hcode : r.exit_code = 0 ∨ r.exit_code = 1
  · rw [if_neg (not_not_intro hcode)]
    by_cases herr : r.stderr = []
    · rw [if_neg (not_not_intro herr)]
      constructor
      · intro h
        refine ⟨hcode, herr, ?_⟩
        by_cases hb : (noErrorsSearch r.stdout || withErrorsSearch r.stdout) = true
        · rw [Bool.or_eq_true] at hb
          rcases hb with hb | hb
          · exact Or.inl ((noErrorsSearch_iff _).mp hb)
          · exact Or.inr ((withErrorsSearch_iff _).mp hb)
        · rw [if_neg hb] at h
          exact Bool.noConfusion h
      · rintro ⟨-, -, hpat⟩
        have hb : (noErrorsSearch r.stdout || withErrorsSearch r.stdout) = true := by
          rw [Bool.or_eq_true]
          rcases hpat with hpat | hpat
          · exact Or.inl ((noErrorsSearch_iff _).mpr hpat)
          · exact Or.inr ((withErrorsSearch_iff _).mpr hpat)
        rw [if_pos hb]
    · rw [if_pos herr]
      constructor
      · intro h
        exact Bool.noConfusion h
      · rintro ⟨-, h, -⟩
        exact absurd h herr
  · rw [if_pos hcode]
    constructor
    · intro h
      exact Bool.noConfusion h
    · rintro ⟨h, -, -⟩
      exact absurd h hcode

/-- Claim C9: the classifier's verdict depends only on stdout, stderr and
exit code; two results agreeing on those three fields but differing in kind
get the same verdict. -/
theorem claim_C9_kind_independence (r1 r2 : ProcResult)
    (ho : r1.stdout = r2.stdout) (he : r1.stderr = r2.stderr)
    (hc : r1.exit_code = r2.exit_code) :
    is_successful_result r1 = is_successful_result r2 := by
  unfold is_successful_result
  rw [ho, he, hc]

theorem claim_C9_witness :
    is_successful_result ⟨ProcType.mypy, okStdout, [], 0⟩
      = is_successful_result ⟨ProcType.dmypy, okStdout, [], 0⟩ :=
  claim_C9_kind_independence _ _ rfl rfl rfl

/-- Claim C5: the reporting tail writes the outcome's stdout to standard
output verbatim, writes the `STDERR:` marker line followed by the outcome's
stderr to standard error exactly when stderr is nonempty, and exits the
process with the outcome's exit code. -/
theorem claim_C5_reporter (r : ProcResult) :
    (report r).out = r.stdout ∧
      ((report r).err = [] ↔ r.stderr = []) ∧
      (r.stderr ≠ [] → (report r).err = stderrMarker ++ r.stderr) ∧
      (report r).code = r.exit_code := by
  refine ⟨rfl, ?_, ?_, rfl⟩
  · by_cases h : r.stderr = [] <;>
      simp [report, h, List.append_eq_nil, stderrMarker_ne_nil]
  · intro h
    simp [report, h]

theorem claim_C5_witness :
    (report ⟨ProcType.mypy, ['o'], ['e'], 1⟩).err = stderrMarker ++ ['e'] ∧
      (report ⟨ProcType.mypy, ['o'], ['e'], 1⟩).code = 1 :=
  ⟨(claim_C5_reporter _).2.2.1 (by decide), (claim_C5_reporter _).2.2.2⟩

/-- Claim C6: with zero arguments the tool prints the usage message
`No args!`, exits with code 1, and launches no subprocess at all: the trace
is empty, so in particular it contains no launch event. -/
theorem claim_C6_no_args (env : RaceEnv) :
    inner_main [] env = (InnerResult.exited ⟨"No args!\n".data, [], 1⟩, []) ∧
      ∀ p : ProcType, Event.launch p ∉ (inner_main [] env).2 :=
  ⟨rfl, fun _ h => by simp [inner_main] at h⟩

/-- Claim C4: if the daemon task finishes first with a trustworthy result,
the one-shot task is cancelled and the daemon result is the one reported. -/
theorem claim_C4_daemon_trustworthy (args : List (List Char)) (env : RaceEnv)
    (dres : ProcResult) (ha : args ≠ []) (hdf : env.daemonDoneFirst = true)
    (hd : env.daemonOutcome = Except.ok dres)
    (hgood : is_successful_result dres = true) :
    inner_main args env = (InnerResult.exited (report dres),
      [Event.launch ProcType.dmypy, Event.launch ProcType.mypy,
        Event.cancel TaskKind.syncTask]) := by
  simp [inner_main, ha, hdf, hd, hgood]

/-- Environment for the C4 witness: daemon first, trustworthy result. -/
def envC4 : RaceEnv :=
  { daemonOutcome := Except.ok dGood
  , syncOutcome := Except.ok mRes
  , killOutcome := Except.ok kOk
  , daemonDoneFirst := true
  , syncDoneFirst := false
  , daemonWithinGrace := false }

theorem claim_C4_witness :
    inner_main [['x']] envC4 = (InnerResult.exited (report dGood),
      [Event.launch ProcType.dmypy, Event.launch ProcType.mypy,
        Event.cancel TaskKind.syncTask]) :=
  claim_C4_daemon_trustworthy [['x']] envC4 dGood (by decide) rfl rfl (by decide)

/-- Claim C3: if the daemon task finishes first with an untrustworthy
result, the kill command is run and awaited to completion before the
one-shot task is awaited with no timeout, and the one-shot result is the one
reported. -/
theorem claim_C3_daemon_untrustworthy (args : List (List Char)) (env : RaceEnv)
    (dres kres sres : ProcResult) (ha : args ≠ [])
    (hdf : env.daemonDoneFirst = true)
    (hd : env.daemonOutcome = Except.ok dres)
    (hbad : is_successful_result dres = false)
    (hk : env.killOutcome = Except.ok kres)
    (hs : env.syncOutcome = Except.ok sres) :
    (inner_main args env).1 = InnerResult.exited (report sres) ∧
      ∃ kev, (inner_main args env).2
            = [Event.launch ProcType.dmypy, Event.launch ProcType.mypy]
              ++ kev ++ [Event.unboundedAwait TaskKind.syncTask] ∧
          Event.launch ProcType.kill ∈ kev ∧ Event.killRunCompleted ∈ kev := by
  by_cases hkf : kres.exit_code ≠ 0 ∨ kres.stderr ≠ []
  · refine ⟨?_, [Event.launch ProcType.kill, Event.killRunCompleted,
      Event.logKillFailure], ?_, by simp, by simp⟩
    · simp [inner_main, ha, hdf, hd, hbad, hk, hs, kill_mypy, hkf]
    · simp [inner_main, ha, hdf, hd, hbad, hk, hs, kill_mypy, hkf]
  · refine ⟨?_, [Event.launch ProcType.kill, Event.killRunCompleted], ?_, by simp, by simp⟩
    · simp [inner_main, ha, hdf, hd, hbad, hk, hs, kill_mypy, hkf]
    · simp [inner_main, ha, hdf, hd, hbad, hk, hs, kill_mypy, hkf]

/-- Environment for the C3 witness: daemon first, untrustworthy result,
clean kill run. -/
def envC3 : RaceEnv :=
  { daemonOutcome := Except.ok dBad
  , syncOutcome := Except.ok mRes
  , killOutcome := Except.ok kOk
  , daemonDoneFirst := true
  , syncDoneFirst := false
  , daemonWithinGrace := false }

theorem claim_C3_witness :
    (inner_main [['x']] envC3).1 = InnerResult.exited (report mRes) ∧
      ∃ kev, (inner_main [['x']] envC3).2
            = [Event.launch ProcType.dmypy, Event.launch ProcType.mypy]
              ++ kev ++ [Event.unboundedAwait TaskKind.syncTask] ∧
          Event.launch ProcType.kill ∈ kev ∧ Event.killRunCompleted ∈ kev :=
  claim_C3_daemon_untrustworthy [['x']] envC3 dBad kOk mRes (by decide) rfl rfl
    (by decide) rfl rfl

/-- Claim C10: a kill run that exits nonzero or writes to stderr is only
logged; the coordinator still awaits the one-shot task without a timeout and
reports its result unchanged. -/
theorem claim_C10_kill_failure_nonfatal (args : List (List Char)) (env : RaceEnv)
    (dres kres sres : ProcResult) (ha : args ≠ [])
    (hdf : env.daemonDoneFirst = true)
    (hd : env.daemonOutcome = Except.ok dres)
    (hbad : is_successful_result dres = false)
    (hk : env.killOutcome = Except.ok kres)
    (hkf : kres.exit_code ≠ 0 ∨ kres.stderr ≠ [])
    (hs : env.syncOutcome = Except.ok sres) :
    (inner_main args env).1 = InnerResult.exited (report sres) ∧
      Event.logKillFailure ∈ (inner_main args env).2 ∧
      Event.unboundedAwait TaskKind.syncTask ∈ (inner_main args env).2 := by
  refine ⟨?_, ?_, ?_⟩ <;>
    simp [inner_main, ha, hdf, hd, hbad, hk, hs, kill_mypy, hkf]

/-- Environment for the C10 witness: daemon first, untrustworthy result,
failing kill run. -/
def envC10 : RaceEnv :=
  { daemonOutcome := Except.ok dBad
  , syncOutcome := Except.ok mRes
  , killOutcome := Except.ok kBad
  , daemonDoneFirst := true
  , syncDoneFirst := false
  , daemonWithinGrace := false }

theorem claim_C10_witness :
    (inner_main [['x']] envC10).1 = InnerResult.exited (report mRes) ∧
      Event.logKillFailure ∈ (inner_main [['x']] envC10).2 ∧
      Event.unboundedAwait TaskKind.syncTask ∈ (inner_main [['x']] envC10).2 :=
  claim_C10_kill_failure_nonfatal [['x']] envC10 dBad kBad mRes (by decide) rfl rfl
    (by decide) rfl (by decide) rfl

/-- Claim C2 as amended: if the one-shot task finishes first, then as long
as the daemon task does not fail with a non-`TimeoutError` exception inside
the grace window, the reported outcome is the one-shot result — any daemon
result, and any timeout failure, in that window is discarded — the daemon
task is never awaited without a timeout, and when it does not finish within
the grace period it is cancelled. (A non-timeout daemon exception inside the
window instead propagates out of `wait_for`, see the counterexample.) -/
theorem claim_C2_one_shot_first (args : List (List Char)) (env : RaceEnv)
    (sres : ProcResult) (ha : args ≠ [])
    (hdf : env.daemonDoneFirst = false) (hsf : env.syncDoneFirst = true)
    (hs : env.syncOutcome = Except.ok sres)
    (hbenign : env.daemonWithinGrace = true →
      (∃ d, env.daemonOutcome = Except.ok d) ∨
        env.daemonOutcome = Except.error Exn.timeoutError) :
    (inner_main args env).1 = InnerResult.exited (report sres) ∧
      Event.unboundedAwait TaskKind.daemonTask ∉ (inner_main args env).2 ∧
      (env.daemonWithinGrace = false →
        Event.cancel TaskKind.daemonTask ∈ (inner_main args env).2) := by
  cases hg : env.daemonWithinGrace with
  | false =>
    refine ⟨?_, ?_, fun _ => ?_⟩ <;> simp [inner_main, ha, hdf, hsf, hs, hg]
  | true =>
    rcases hbenign hg with ⟨d, hd⟩ | hd
    · refine ⟨?_, ?_, fun hcontra => Bool.noConfusion hcontra⟩ <;>
        simp [inner_main, ha, hdf, hsf, hs, hg, hd]
    · refine ⟨?_, ?_, fun hcontra => Bool.noConfusion hcontra⟩ <;>
        simp [inner_main, ha, hdf, hsf, hs, hg, hd]

/-- Environment for the C2 witness: one-shot first, daemon not done within
the grace period. -/
def envC2 : RaceEnv :=
  { daemonOutcome := Except.ok dBad
  , syncOutcome := Except.ok mRes
  , killOutcome := Except.ok kOk
  , daemonDoneFirst := false
  , syncDoneFirst := true
  , daemonWithinGrace := false }

theorem claim_C2_witness :
    (inner_main [['x']] envC2).1 = InnerResult.exited (report mRes) ∧
      Event.unboundedAwait TaskKind.daemonTask ∉ (inner_main [['x']] envC2).2 ∧
      Event.cancel TaskKind.daemonTask ∈ (inner_main [['x']] envC2).2 := by
  obtain ⟨h1, h2, h3⟩ := claim_C2_one_shot_first [['x']] envC2 mRes (by decide) rfl rfl
    rfl (fun hg => Bool.noConfusion hg)
  exact ⟨h1, h2, h3 rfl⟩

/-- Environment refuting claim C2 as stated: the one-shot task finishes
first, and inside the grace window the daemon task fails with an exception
other than `TimeoutError` (such as a launch failure). -/
def envC2cex : RaceEnv :=
  { daemonOutcome := Except.error (Exn.other 0)
  , syncOutcome := Except.ok mRes
  , killOutcome := Except.ok kOk
  , daemonDoneFirst := false
  , syncDoneFirst := true
  , daemonWithinGrace := true }

/-- Counterexample to claim C2 as stated: a daemon failure inside the grace
window is not always discarded. `except TimeoutError` only catches the
timeout; here the daemon task's exception re-raised by
`wait_for(daemon_task, timeout=1)` propagates, and the already-captured
one-shot result is not reported. -/
theorem claim_C2_counterexample :
    (inner_main [['x']] envC2cex).1 = InnerResult.raised (Exn.other 0) ∧
      (inner_main [['x']] envC2cex).1 ≠ InnerResult.exited (report mRes) :=
  ⟨rfl, by decide⟩

/-- Claim C7: with at least one argument, when both racing tasks would
complete normally and the kill run (if reached) completes as a process, the
reported outcome is the report of exactly one of the two primary task
results; the other result never contributes to the reported stdout, stderr
or exit code. -/
theorem claim_C7_single_authoritative (args : List (List Char)) (env : RaceEnv)
    (dres sres kres : ProcResult) (ha : args ≠ [])
    (hd : env.daemonOutcome = Except.ok dres)
    (hs : env.syncOutcome = Except.ok sres)
    (hk : env.killOutcome = Except.ok kres)
    (hdone : env.daemonDoneFirst = true ∨ env.syncDoneFirst = true) :
    (inner_main args env).1 = InnerResult.exited (report dres) ∨
      (inner_main args env).1 = InnerResult.exited (report sres) := by
  cases hdf : env.daemonDoneFirst with
  | true =>
    cases hgood : is_successful_result dres with
    | true =>
      left
      simp [inner_main, ha, hdf, hd, hgood]
    | false =>
      right
      by_cases hkf : kres.exit_code ≠ 0 ∨ kres.stderr ≠ [] <;>
        simp [inner_main, ha, hdf, hd, hgood, hk, hs, kill_mypy, hkf]
  | false =>
    have hsf : env.syncDoneFirst = true := by
      rcases hdone with h | h
      · rw [hdf] at h
        exact Bool.noConfusion h
      · exact h
    right
    cases hg : env.daemonWithinGrace with
    | true => simp [inner_main, ha, hdf, hsf, hs, hd, hg]
    | false => simp [inner_main, ha, hdf, hsf, hs, hg]

theorem claim_C7_witness :
    (inner_main [['x']] envC4).1 = InnerResult.exited (report dGood) ∨
      (inner_main [['x']] envC4).1 = InnerResult.exited (report mRes) :=
  claim_C7_single_authoritative [['x']] envC4 dGood mRes kOk (by decide) rfl rfl rfl
    (Or.inl rfl)

end Bmypy
